import Mathlib

/-!
Verification of the Geneva telemetry-export pipeline of
`opentelemetry-rust-contrib`.  The repository snapshot under study contains
the driver example `opentelemetry-exporter-geneva/examples/basic_msi.rs`,
which reads its configuration from environment variables, builds a
`GenevaClientConfig`, constructs the client and drives the export pipeline
(batch processor, exporter, upload transport) described by the design
document.  The configuration-reading phase is embedded directly from the
example source; the pipeline components, whose code is not part of the
snapshot, are modelled from the design document where a claim needs them.
-/

set_option autoImplicit false

namespace Geneva

/-- An environment assignment: variable name to value, as observed by
`std::env::var` (a variable is either absent or has a string value). -/
abbrev Env := List (String × String)

/-- Look up an environment variable, `std::env::var` style: `none` models
`Err(VarError::NotPresent)`. -/
def envVar (env : Env) (k : String) : Option String :=
  (env.find? (fun p => p.1 == k)).map (fun p => p.2)

/-- Decimal value of an ASCII digit character, as in Rust's integer parsing. -/
def digitVal (c : Char) : Nat := c.toNat - 48

/-- Accumulate a list of ASCII digits into a natural number, most significant
digit first. -/
def digitsToNat (cs : List Char) : Nat :=
  cs.foldl (fun a c => a * 10 + digitVal c) 0

/-- Drop one leading `'+'` sign if present, as Rust's `u32::from_str` allows. -/
def stripPlus (cs : List Char) : List Char :=
  match cs with
  | [] => []
  | c :: rest => if c = '+' then rest else c :: rest

/-- Embedding of Rust's `str::parse::<u32>()`: an optional leading `'+'`
followed by one or more ASCII digits whose value fits in 32 bits; everything
else (empty string, other characters, overflow) is a parse error. -/
def parseU32 (s : String) : Option Nat :=
  let ds := stripPlus s.data
  if ds.isEmpty then none
  else if ds.all Char.isDigit then
    if digitsToNat ds < 4294967296 then some (digitsToNat ds) else none
  else none

/-- The `geneva_uploader::AuthMethod` selector as used by the example
(`basic_msi.rs` selects `AuthMethod::ManagedIdentity`). -/
inductive AuthMethod where
  | ManagedIdentity
deriving DecidableEq, Repr

/-- Embedding of `geneva_uploader::client::GenevaClientConfig`: the immutable client
configuration value constructed by `basic_msi.rs` lines 52-63, with exactly
the ten fields of the source struct literal. -/
structure GenevaClientConfig where
  endpoint : String
  environment : String
  account : String
  «namespace» : String
  region : String
  config_major_version : Nat
  auth_method : AuthMethod
  tenant : String
  role_name : String
  role_instance : String
deriving DecidableEq, Repr

/-- The ways `main` in `basic_msi.rs` can panic before the client is
constructed: a required variable is absent (`expect("... is required")`) or
`GENEVA_CONFIG_MAJOR_VERSION` does not parse as a `u32`
(`expect("GENEVA_CONFIG_MAJOR_VERSION must be a u32")`). -/
inductive MainError where
  | missingVar (name : String)
  | badU32 (s : String)
deriving DecidableEq, Repr

/-- Embedding of `main`'s configuration phase (`basic_msi.rs` lines 33-63):
read the six required variables in source order, parse the version as `u32`,
read the three optional identity variables with their defaults, and build the
`GenevaClientConfig` struct literal. -/
def readConfig (env : Env) : Except MainError GenevaClientConfig :=
  match envVar env "GENEVA_ENDPOINT" with
  | none => Except.error (MainError.missingVar "GENEVA_ENDPOINT")
  | some endpoint =>
  match envVar env "GENEVA_ENVIRONMENT" with
  | none => Except.error (MainError.missingVar "GENEVA_ENVIRONMENT")
  | some environment =>
  match envVar env "GENEVA_ACCOUNT" with
  | none => Except.error (MainError.missingVar "GENEVA_ACCOUNT")
  | some account =>
  match envVar env "GENEVA_NAMESPACE" with
  | none => Except.error (MainError.missingVar "GENEVA_NAMESPACE")
  | some ns =>
  match envVar env "GENEVA_REGION" with
  | none => Except.error (MainError.missingVar "GENEVA_REGION")
  | some region =>
  match envVar env "GENEVA_CONFIG_MAJOR_VERSION" with
  | none => Except.error (MainError.missingVar "GENEVA_CONFIG_MAJOR_VERSION")
  | some vs =>
  match parseU32 vs with
  | none => Except.error (MainError.badU32 vs)
  | some config_major_version =>
  Except.ok
    { endpoint := endpoint
      environment := environment
      account := account
      «namespace» := ns
      region := region
      config_major_version := config_major_version
      auth_method := AuthMethod.ManagedIdentity
      tenant := (envVar env "GENEVA_TENANT").getD "default-tenant"
      role_name := (envVar env "GENEVA_ROLE_NAME").getD "default-role"
      role_instance := (envVar env "GENEVA_ROLE_INSTANCE").getD "default-instance" }

/-- Outcome of the startup phase of `main`: either a panic strictly before
`GenevaClient::new` is reached (so before the client exists and before any
network call, which only `GenevaClient::new` and the transport perform), or
the configuration with which the client is constructed. -/
inductive RunOutcome where
  | haltedBeforeClient (e : MainError)
  | clientConstructed (cfg : GenevaClientConfig)
deriving DecidableEq, Repr

/-- Control flow of `main` up to client construction: any configuration error
halts the run before the client is constructed. -/
def runStartup (env : Env) : RunOutcome :=
  match readConfig env with
  | Except.error e => RunOutcome.haltedBeforeClient e
  | Except.ok cfg => RunOutcome.clientConstructed cfg

/-- A concrete environment with the six required variables valid and the
optional identity variables absent. -/
def envBase : Env :=
  [("GENEVA_ENDPOINT", "https://gcs.example.com"),
   ("GENEVA_ENVIRONMENT", "Test"),
   ("GENEVA_ACCOUNT", "acct1"),
   ("GENEVA_NAMESPACE", "ns1"),
   ("GENEVA_REGION", "eastus"),
   ("GENEVA_CONFIG_MAJOR_VERSION", "7")]

/-- The environment `envBase` with `GENEVA_TENANT` set to the empty string. -/
def envEmptyTenant : Env := envBase ++ [("GENEVA_TENANT", "")]

/-- Modelled from the spec: the tagged-union value type of a record field
(string | integer | float | boolean); the code owning it (the uploader
crate's record representation) is not part of the snapshot.  The float case
carries its decimal representation, whose arithmetic none of the properties
below touches. -/
inductive FieldValue where
  | str (s : String)
  | int (i : Int)
  | boolean (b : Bool)
  | float (dec : String)
deriving DecidableEq, Repr

/-- Modelled from the spec: a LogRecord is an immutable structured event
with a name, target/category, severity, timestamp and a mapping of field
name to typed value. -/
structure LogRecord where
  name : String
  target : String
  severity : Nat
  timestamp : Nat
  fields : List (String × FieldValue)
deriving DecidableEq, Repr

/-- Modelled from the spec: wire encoding of a string — a length marker
followed by the character codes (the concrete encoder lives in the uploader
crate, which is not part of the snapshot). -/
def encodeString (s : String) : List Nat :=
  s.length :: s.data.map Char.toNat

/-- Modelled from the spec: wire encoding of one typed field value, tagged
by its variant. -/
def encodeValue : FieldValue → List Nat
  | FieldValue.str s => 0 :: encodeString s
  | FieldValue.int i => [1, 2 * i.natAbs + if i < 0 then 1 else 0]
  | FieldValue.boolean b => [2, if b then 1 else 0]
  | FieldValue.float d => 3 :: encodeString d

/-- Modelled from the spec: the Exporter converts one LogRecord into the
ingestion wire representation; every record encodes to a nonempty sequence
headed by a record marker. -/
def serializeRecord (r : LogRecord) : List Nat :=
  114 :: (encodeString r.name ++ encodeString r.target ++
    [r.severity, r.timestamp] ++
    (r.fields.map (fun p => encodeString p.1 ++ encodeValue p.2)).flatten)

/-- Modelled from the spec: identity metadata (tenant, role name, role
instance) is attached once per batch, ahead of the records. -/
def batchHeader (tenant roleName roleInstance : String) : List Nat :=
  encodeString tenant ++ encodeString roleName ++ encodeString roleInstance

/-- Modelled from the spec: a batch serializes to its identity-metadata
header followed by the records' encodings in batch order. -/
def serializeBatch (tenant roleName roleInstance : String)
    (b : List LogRecord) : List Nat :=
  batchHeader tenant roleName roleInstance ++ (b.map serializeRecord).flatten

/-- Position at which record `k` of a batch begins inside the batch's
serialization. -/
def recordOffset (tenant roleName roleInstance : String) (b : List LogRecord)
    (k : Nat) : Nat :=
  (batchHeader tenant roleName roleInstance).length +
    (((b.map serializeRecord).map List.length).take k).sum

/-- Modelled from the spec: observable outcome of one network send attempt
by the Upload Transport. -/
inductive SendOutcome where
  | httpStatus (code : Nat)
  | timeout
  | connectionReset
deriving DecidableEq, Repr

/-- Modelled from the spec: the error taxonomy's classification of one send
outcome. -/
inductive ErrorKind where
  | success
  | authError
  | negotiationError
  | transportError
  | fatal
deriving DecidableEq, Repr

/-- Modelled from the spec: the Upload Transport's response classification:
2xx success; 401/403 auth; 404/410 stale session; 5xx, timeout and
connection reset retryable transport errors; remaining statuses fatal. -/
def classify : SendOutcome → ErrorKind
  | SendOutcome.httpStatus c =>
    if 200 ≤ c ∧ c < 300 then ErrorKind.success
    else if c = 401 ∨ c = 403 then ErrorKind.authError
    else if c = 404 ∨ c = 410 then ErrorKind.negotiationError
    else if 500 ≤ c ∧ c < 600 then ErrorKind.transportError
    else ErrorKind.fatal
  | SendOutcome.timeout => ErrorKind.transportError
  | SendOutcome.connectionReset => ErrorKind.transportError

/-- Modelled from the spec: outcome of one flush attempt — success with a
count of records accepted, partial failure with per-record reasons, or a
classified failure of the whole batch. -/
inductive ExportResult where
  | success (accepted : Nat)
  | someRejected (accepted : Nat) (rejected : List (Nat × String))
  | failure (c : ErrorKind)
deriving DecidableEq, Repr

/-- Modelled from the spec: the batch as the Exporter hands it on — the
records together with the identity metadata attached once per batch. -/
structure TaggedBatch where
  tenant : String
  role_name : String
  role_instance : String
  records : List LogRecord
deriving DecidableEq, Repr

/-- Modelled from the spec: export(batch) serializes the batch, attaches the
configuration's identity metadata once per batch and delegates to the Upload
Transport; a response classified success accepts every record of the
batch. -/
def exportBatch (cfg : GenevaClientConfig) (transport : List Nat → SendOutcome)
    (b : List LogRecord) : TaggedBatch × ExportResult :=
  let payload := serializeBatch cfg.tenant cfg.role_name cfg.role_instance b
  let tagged := TaggedBatch.mk cfg.tenant cfg.role_name cfg.role_instance b
  match classify (transport payload) with
  | ErrorKind.success => (tagged, ExportResult.success b.length)
  | c => (tagged, ExportResult.failure c)

/-- Modelled from the spec: the Batch Processor's observable state — records
buffered but not yet delivered, and records already delivered. -/
structure PipelineState where
  pending : List LogRecord
  delivered : List LogRecord
deriving DecidableEq, Repr

/-- The processor's initial state: nothing buffered, nothing delivered. -/
def initState : PipelineState := PipelineState.mk [] []

/-- Modelled from the spec: enqueue appends the record to the buffer without
performing any I/O. -/
def enqueue (r : LogRecord) (st : PipelineState) : PipelineState :=
  PipelineState.mk (st.pending ++ [r]) st.delivered

/-- Modelled from the spec: flush() forces the pending batch out — a
non-empty buffer is handed to the Exporter exactly once; on success the
batch moves to delivered, on failure it stays buffered.  Returns the new
state, the Exporter invocations performed, and the flush result. -/
def flush (cfg : GenevaClientConfig) (transport : List Nat → SendOutcome)
    (st : PipelineState) : PipelineState × List TaggedBatch × ExportResult :=
  if st.pending.isEmpty then (st, [], ExportResult.success 0)
  else
    match exportBatch cfg transport st.pending with
    | (tagged, ExportResult.success n) =>
      (PipelineState.mk [] (st.delivered ++ st.pending), [tagged],
        ExportResult.success n)
    | (tagged, res) => (st, [tagged], res)

/-- Modelled from the spec: result of shutdown(timeout) — success, or the
ShutdownError carrying the count of records lost to the drain timeout. -/
inductive ShutdownResult where
  | success (deliveredCount : Nat)
  | timedOut (lostCount : Nat)
deriving DecidableEq, Repr

/-- Modelled from the spec: shutdown(timeout) stops accepting records and
drains the buffer; `budget` abstracts the timeout as the number of buffered
records the transport manages to deliver before it elapses.  Records not
delivered in time are reported as lost in the ShutdownError's count, never
silently dropped. -/
def shutdown (st : PipelineState) (budget : Nat) :
    PipelineState × ShutdownResult :=
  let flushed := st.pending.take budget
  let lost := st.pending.drop budget
  let st2 := PipelineState.mk [] (st.delivered ++ flushed)
  if lost.isEmpty then (st2, ShutdownResult.success st2.delivered.length)
  else (st2, ShutdownResult.timedOut lost.length)

/-- Modelled from the spec: the bounded retry loop of the Upload Transport
as a pure function of each attempt's outcome — attempt `k` is performed; a
retryable transport error consumes one unit of the remaining retry budget,
any other classification stops the loop.  Returns the total number of
attempts performed and the final classification. -/
def retryFrom (attempt : Nat → SendOutcome) : Nat → Nat → Nat × ErrorKind
  | k, 0 => (1, classify (attempt k))
  | k, r + 1 =>
    match classify (attempt k) with
    | ErrorKind.transportError =>
      let p := retryFrom attempt (k + 1) r
      (p.1 + 1, p.2)
    | c => (1, c)

/-- Modelled from the spec: send with bounded retry — the initial attempt
plus up to `ceiling` further attempts under exponential backoff; exhaustion
surfaces the transport error as a failure for that batch. -/
def sendWithRetry (attempt : Nat → SendOutcome) (ceiling : Nat) :
    Nat × ErrorKind :=
  retryFrom attempt 0 ceiling

/-- Split a URL's characters at the first `://`, returning the scheme part
and the remainder. -/
def splitOnSchemeSep : List Char → Option (List Char × List Char)
  | [] => none
  | ':' :: '/' :: '/' :: rest => some ([], rest)
  | c :: rest =>
    match splitOnSchemeSep rest with
    | none => none
    | some p => some (c :: p.1, p.2)

/-- Origin of a URL: scheme and authority, everything up to the first `/`
after the scheme separator; a string without a scheme separator is its own
origin. -/
def origin (url : String) : String :=
  match splitOnSchemeSep url.data with
  | none => url
  | some p =>
    String.mk (p.1 ++ ':' :: '/' :: '/' :: p.2.takeWhile (fun c => c ≠ '/'))

/-- Modelled from the spec: the audience the Credential Provider requests a
token for — the `GENEVA_AAD_SCOPE` override if set, else the
`GENEVA_AAD_RESOURCE` override, else the origin of the configured endpoint
(the audience-resolution code lives in the uploader crate, which is not part
of the snapshot; `basic_msi.rs` lines 10-11 and 48-51 document it). -/
def resolveAudience (env : Env) (endpoint : String) : String :=
  match envVar env "GENEVA_AAD_SCOPE" with
  | some s => s
  | none =>
    match envVar env "GENEVA_AAD_RESOURCE" with
    | some r => r
    | none => origin endpoint

/-- Modelled from the spec: a Credential is an access token, its expiry
instant, and the audience it was issued for. -/
structure Credential where
  token : String
  expiry : Nat
  audience : String
deriving DecidableEq, Repr

/-- Modelled from the spec: the Credential Provider's get_token for the
configured endpoint — token and expiry come from the identity endpoint
(abstracted as `issue`), and the credential is issued for the resolved
audience. -/
def getToken (env : Env) (endpoint : String)
    (issue : String → String × Nat) : Credential :=
  let aud := resolveAudience env endpoint
  Credential.mk (issue aud).1 (issue aud).2 aud

/-- The example scenario's client configuration: account "acct1", namespace
"ns1", config-major-version 1. -/
def cfgExample : GenevaClientConfig :=
  GenevaClientConfig.mk "https://gcs.example.com" "Test" "acct1" "ns1"
    "eastus" 1 AuthMethod.ManagedIdentity "tenant1" "role1" "instance1"

/-- A transport whose every attempt is answered with HTTP 200. -/
def mock200 : List Nat → SendOutcome := fun _ => SendOutcome.httpStatus 200

/-- A sample record, after the example's first `info!` event. -/
def recReg : LogRecord :=
  LogRecord.mk "Log" "my-system" 9 100
    [("event_id", FieldValue.int 20),
     ("message", FieldValue.str "Registration successful")]

/-- A sample record, after the example's second `info!` event. -/
def recCheckout : LogRecord :=
  LogRecord.mk "Log" "my-system" 9 101
    [("event_id", FieldValue.int 51),
     ("message", FieldValue.str "Checkout successful")]

/-- A sample record, after the example's third `info!` event. -/
def recLogin : LogRecord :=
  LogRecord.mk "Log" "my-system" 9 102
    [("event_id", FieldValue.int 30),
     ("message", FieldValue.str "User login successful")]

theorem readConfig_eq_ok (env : Env) (e1 e2 e3 e4 e5 s : String) (v : Nat)
    (h1 : envVar env "GENEVA_ENDPOINT" = some e1)
    (h2 : envVar env "GENEVA_ENVIRONMENT" = some e2)
    (h3 : envVar env "GENEVA_ACCOUNT" = some e3)
    (h4 : envVar env "GENEVA_NAMESPACE" = some e4)
    (h5 : envVar env "GENEVA_REGION" = some e5)
    (h6 : envVar env "GENEVA_CONFIG_MAJOR_VERSION" = some s)
    (hp : parseU32 s = some v) :
    readConfig env = Except.ok
      { endpoint := e1
        environment := e2
        account := e3
        «namespace» := e4
        region := e5
        config_major_version := v
        auth_method := AuthMethod.ManagedIdentity
        tenant := (envVar env "GENEVA_TENANT").getD "default-tenant"
        role_name := (envVar env "GENEVA_ROLE_NAME").getD "default-role"
        role_instance := (envVar env "GENEVA_ROLE_INSTANCE").getD "default-instance" } := by
  unfold readConfig
  rw [h1, h2, h3, h4, h5, h6]
  simp [hp]

theorem readConfig_eq_badU32 (env : Env) (e1 e2 e3 e4 e5 s : String)
    (h1 : envVar env "GENEVA_ENDPOINT" = some e1)
    (h2 : envVar env "GENEVA_ENVIRONMENT" = some e2)
    (h3 : envVar env "GENEVA_ACCOUNT" = some e3)
    (h4 : envVar env "GENEVA_NAMESPACE" = some e4)
    (h5 : envVar env "GENEVA_REGION" = some e5)
    (h6 : envVar env "GENEVA_CONFIG_MAJOR_VERSION" = some s)
    (hp : parseU32 s = none) :
    readConfig env = Except.error (MainError.badU32 s) := by
  unfold readConfig
  rw [h1, h2, h3, h4, h5, h6]
  simp [hp]

theorem readConfig_ok_fields (env : Env) (cfg : GenevaClientConfig)
    (h : readConfig env = Except.ok cfg) :
    envVar env "GENEVA_ENDPOINT" = some cfg.endpoint ∧
    envVar env "GENEVA_ENVIRONMENT" = some cfg.environment ∧
    envVar env "GENEVA_ACCOUNT" = some cfg.account ∧
    envVar env "GENEVA_NAMESPACE" = some cfg.«namespace» ∧
    envVar env "GENEVA_REGION" = some cfg.region ∧
    (∃ s, envVar env "GENEVA_CONFIG_MAJOR_VERSION" = some s ∧
      parseU32 s = some cfg.config_major_version) ∧
    cfg.auth_method = AuthMethod.ManagedIdentity ∧
    cfg.tenant = (envVar env "GENEVA_TENANT").getD "default-tenant" ∧
    cfg.role_name = (envVar env "GENEVA_ROLE_NAME").getD "default-role" ∧
    cfg.role_instance = (envVar env "GENEVA_ROLE_INSTANCE").getD "default-instance" := by
  unfold readConfig at h
  split at h
  · simp at h
  next endpoint h1 =>
  split at h
  · simp at h
  next environment h2 =>
  split at h
  · simp at h
  next account h3 =>
  split at h
  · simp at h
  next ns h4 =>
  split at h
  · simp at h
  next region h5 =>
  split at h
  · simp at h
  next vs h6 =>
  split at h
  · simp at h
  next v h7 =>
  injection h with h
  subst h
  exact ⟨h1, h2, h3, h4, h5, ⟨vs, h6, h7⟩, rfl, rfl, rfl, rfl⟩

theorem runStartup_ok (env : Env) (cfg : GenevaClientConfig)
    (h : runStartup env = RunOutcome.clientConstructed cfg) :
    readConfig env = Except.ok cfg := by
  unfold runStartup at h
  split at h
  · simp at h
  next cfg0 heq =>
    injection h with h
    subst h
    exact heq

theorem stripPlus_of_digits (cs : List Char) (h : cs.all Char.isDigit = true) :
    stripPlus cs = cs := by
  cases cs with
  | nil => rfl
  | cons c rest =>
    have hc : c.isDigit = true := (List.all_eq_true.mp h) c (List.mem_cons_self c rest)
    have hne : c ≠ '+' := by
      intro hEq
      rw [hEq] at hc
      exact absurd hc (by decide)
    simp [stripPlus, hne]

theorem parseU32_of_digits (s : String) (h1 : s.data ≠ [])
    (h2 : s.data.all Char.isDigit = true) :
    parseU32 s =
      if digitsToNat s.data < 4294967296 then some (digitsToNat s.data) else none := by
  unfold parseU32
  rw [stripPlus_of_digits s.data h2]
  simp [List.isEmpty_iff, h1, h2]

/-- C2: for every environment in which the six required variables are
present, with `GENEVA_CONFIG_MAJOR_VERSION` bound to the string `s`, the run
accepts `s` exactly when `s` parses as a `u32`: on success the parsed value
is passed verbatim as `config_major_version` of the configuration with which
the client is constructed, and when `s` does not parse the run halts before
the client is constructed. -/
theorem config_major_version_accepts_exactly_u32 (env : Env) (s : String)
    (h1 : ∃ x, envVar env "GENEVA_ENDPOINT" = some x)
    (h2 : ∃ x, envVar env "GENEVA_ENVIRONMENT" = some x)
    (h3 : ∃ x, envVar env "GENEVA_ACCOUNT" = some x)
    (h4 : ∃ x, envVar env "GENEVA_NAMESPACE" = some x)
    (h5 : ∃ x, envVar env "GENEVA_REGION" = some x)
    (h6 : envVar env "GENEVA_CONFIG_MAJOR_VERSION" = some s) :
    (∀ v, parseU32 s = some v →
      ∃ cfg, runStartup env = RunOutcome.clientConstructed cfg ∧
        cfg.config_major_version = v) ∧
    (parseU32 s = none →
      runStartup env = RunOutcome.haltedBeforeClient (MainError.badU32 s)) := by
  obtain ⟨e1, h1⟩ := h1
  obtain ⟨e2, h2⟩ := h2
  obtain ⟨e3, h3⟩ := h3
  obtain ⟨e4, h4⟩ := h4
  obtain ⟨e5, h5⟩ := h5
  constructor
  · intro v hv
    have hr := readConfig_eq_ok env e1 e2 e3 e4 e5 s v h1 h2 h3 h4 h5 h6 hv
    refine ⟨{ endpoint := e1
              environment := e2
              account := e3
              «namespace» := e4
              region := e5
              config_major_version := v
              auth_method := AuthMethod.ManagedIdentity
              tenant := (envVar env "GENEVA_TENANT").getD "default-tenant"
              role_name := (envVar env "GENEVA_ROLE_NAME").getD "default-role"
              role_instance := (envVar env "GENEVA_ROLE_INSTANCE").getD "default-instance" },
            ?_, rfl⟩
    unfold runStartup
    rw [hr]
  · intro hv
    have hr := readConfig_eq_badU32 env e1 e2 e3 e4 e5 s h1 h2 h3 h4 h5 h6 hv
    unfold runStartup
    rw [hr]

/-- Witness for C2 at the concrete environment `envBase`, whose version
string "7" parses to 7. -/
theorem config_major_version_accepts_exactly_u32_witness :
    parseU32 "7" = some 7 ∧
    ∃ cfg, runStartup envBase = RunOutcome.clientConstructed cfg ∧
      cfg.config_major_version = 7 :=
  ⟨by decide,
   (config_major_version_accepts_exactly_u32 envBase "7"
      ⟨"https://gcs.example.com", rfl⟩ ⟨"Test", rfl⟩ ⟨"acct1", rfl⟩
      ⟨"ns1", rfl⟩ ⟨"eastus", rfl⟩ rfl).1 7 (by decide)⟩

/-- C3: a run in which any of the six required configuration variables is
absent halts before the client is constructed (and hence before any network
call, which only client construction and the transport perform). -/
theorem missing_required_var_fails_fast (env : Env)
    (h : envVar env "GENEVA_ENDPOINT" = none ∨
         envVar env "GENEVA_ENVIRONMENT" = none ∨
         envVar env "GENEVA_ACCOUNT" = none ∨
         envVar env "GENEVA_NAMESPACE" = none ∨
         envVar env "GENEVA_REGION" = none ∨
         envVar env "GENEVA_CONFIG_MAJOR_VERSION" = none) :
    ∃ e, runStartup env = RunOutcome.haltedBeforeClient e := by
  cases hr : readConfig env with
  | error e =>
    refine ⟨e, ?_⟩
    unfold runStartup
    rw [hr]
  | ok cfg =>
    exfalso
    obtain ⟨f1, f2, f3, f4, f5, ⟨s, f6, -⟩, -, -, -, -⟩ :=
      readConfig_ok_fields env cfg hr
    rcases h with h | h | h | h | h | h <;> simp_all

/-- Witness for C3 at the empty environment, where every required variable
is absent. -/
theorem missing_required_var_fails_fast_witness :
    ∃ e, runStartup [] = RunOutcome.haltedBeforeClient e :=
  missing_required_var_fails_fast [] (Or.inl rfl)

/-- C4: whenever the client is constructed, its configuration is exactly the
ten-field `GenevaClientConfig` value populated from the six required
variables, the fixed `ManagedIdentity` auth method selector, and the three
optional identity variables with their defaults — every field populated, and
no field beyond these ten exists in the structure. -/
theorem client_config_ten_fields_populated (env : Env) (cfg : GenevaClientConfig)
    (h : runStartup env = RunOutcome.clientConstructed cfg) :
    ∃ e1 e2 e3 e4 e5 s v,
      envVar env "GENEVA_ENDPOINT" = some e1 ∧
      envVar env "GENEVA_ENVIRONMENT" = some e2 ∧
      envVar env "GENEVA_ACCOUNT" = some e3 ∧
      envVar env "GENEVA_NAMESPACE" = some e4 ∧
      envVar env "GENEVA_REGION" = some e5 ∧
      envVar env "GENEVA_CONFIG_MAJOR_VERSION" = some s ∧
      parseU32 s = some v ∧
      cfg = GenevaClientConfig.mk e1 e2 e3 e4 e5 v AuthMethod.ManagedIdentity
        ((envVar env "GENEVA_TENANT").getD "default-tenant")
        ((envVar env "GENEVA_ROLE_NAME").getD "default-role")
        ((envVar env "GENEVA_ROLE_INSTANCE").getD "default-instance") := by
  have hr := runStartup_ok env cfg h
  obtain ⟨f1, f2, f3, f4, f5, ⟨s, f6, f7⟩, f8, f9, f10, f11⟩ :=
    readConfig_ok_fields env cfg hr
  refine ⟨cfg.endpoint, cfg.environment, cfg.account, cfg.«namespace», cfg.region,
    s, cfg.config_major_version, f1, f2, f3, f4, f5, f6, f7, ?_⟩
  cases cfg
  simp_all

/-- Witness for C4 at the concrete environment `envBase`. -/
theorem client_config_ten_fields_populated_witness :
    ∃ e1 e2 e3 e4 e5 s v,
      envVar envBase "GENEVA_ENDPOINT" = some e1 ∧
      envVar envBase "GENEVA_ENVIRONMENT" = some e2 ∧
      envVar envBase "GENEVA_ACCOUNT" = some e3 ∧
      envVar envBase "GENEVA_NAMESPACE" = some e4 ∧
      envVar envBase "GENEVA_REGION" = some e5 ∧
      envVar envBase "GENEVA_CONFIG_MAJOR_VERSION" = some s ∧
      parseU32 s = some v ∧
      GenevaClientConfig.mk "https://gcs.example.com" "Test" "acct1" "ns1" "eastus" 7
          AuthMethod.ManagedIdentity "default-tenant" "default-role" "default-instance"
        = GenevaClientConfig.mk e1 e2 e3 e4 e5 v AuthMethod.ManagedIdentity
            ((envVar envBase "GENEVA_TENANT").getD "default-tenant")
            ((envVar envBase "GENEVA_ROLE_NAME").getD "default-role")
            ((envVar envBase "GENEVA_ROLE_INSTANCE").getD "default-instance") :=
  client_config_ten_fields_populated envBase
    (GenevaClientConfig.mk "https://gcs.example.com" "Test" "acct1" "ns1" "eastus" 7
      AuthMethod.ManagedIdentity "default-tenant" "default-role" "default-instance")
    (by decide)

/-- C9 counterexample: with `GENEVA_TENANT` set to the empty string the
client is constructed with an empty `tenant` field, so the constructed
configuration's identity fields are not non-empty for every environment
assignment. -/
theorem tenant_empty_counterexample :
    ∃ cfg, runStartup envEmptyTenant = RunOutcome.clientConstructed cfg ∧
      cfg.tenant = "" :=
  ⟨GenevaClientConfig.mk "https://gcs.example.com" "Test" "acct1" "ns1" "eastus" 7
      AuthMethod.ManagedIdentity "" "default-role" "default-instance",
   by decide, rfl⟩

/-- C9 (amended): when `GENEVA_TENANT`, `GENEVA_ROLE_NAME` or
`GENEVA_ROLE_INSTANCE` is absent the run does not fail on their account:
with the six required variables present and a parsable version the client is
constructed, each absent identity field receives its default
("default-tenant" / "default-role" / "default-instance"), and each such
field is non-empty. -/
theorem absent_identity_vars_use_defaults (env : Env) (e1 e2 e3 e4 e5 s : String)
    (v : Nat)
    (h1 : envVar env "GENEVA_ENDPOINT" = some e1)
    (h2 : envVar env "GENEVA_ENVIRONMENT" = some e2)
    (h3 : envVar env "GENEVA_ACCOUNT" = some e3)
    (h4 : envVar env "GENEVA_NAMESPACE" = some e4)
    (h5 : envVar env "GENEVA_REGION" = some e5)
    (h6 : envVar env "GENEVA_CONFIG_MAJOR_VERSION" = some s)
    (hp : parseU32 s = some v) :
    ∃ cfg, runStartup env = RunOutcome.clientConstructed cfg ∧
      (envVar env "GENEVA_TENANT" = none →
        cfg.tenant = "default-tenant" ∧ cfg.tenant ≠ "") ∧
      (envVar env "GENEVA_ROLE_NAME" = none →
        cfg.role_name = "default-role" ∧ cfg.role_name ≠ "") ∧
      (envVar env "GENEVA_ROLE_INSTANCE" = none →
        cfg.role_instance = "default-instance" ∧ cfg.role_instance ≠ "") := by
  have hr := readConfig_eq_ok env e1 e2 e3 e4 e5 s v h1 h2 h3 h4 h5 h6 hp
  refine ⟨{ endpoint := e1
            environment := e2
            account := e3
            «namespace» := e4
            region := e5
            config_major_version := v
            auth_method := AuthMethod.ManagedIdentity
            tenant := (envVar env "GENEVA_TENANT").getD "default-tenant"
            role_name := (envVar env "GENEVA_ROLE_NAME").getD "default-role"
            role_instance := (envVar env "GENEVA_ROLE_INSTANCE").getD "default-instance" },
          ?_, ?_, ?_, ?_⟩
  · unfold runStartup
    rw [hr]
  · intro hnone
    simp [hnone]
  · intro hnone
    simp [hnone]
  · intro hnone
    simp [hnone]

/-- Witness for the amended C9 at `envBase`, where the three identity
variables are absent: the constructed configuration carries the defaults. -/
theorem absent_identity_vars_use_defaults_witness :
    ∃ cfg, runStartup envBase = RunOutcome.clientConstructed cfg ∧
      cfg.tenant = "default-tenant" ∧ cfg.role_name = "default-role" ∧
      cfg.role_instance = "default-instance" := by
  obtain ⟨cfg, hc, ht, hrn, hri⟩ :=
    absent_identity_vars_use_defaults envBase "https://gcs.example.com" "Test"
      "acct1" "ns1" "eastus" "7" 7 rfl rfl rfl rfl rfl rfl (by decide)
  exact ⟨cfg, hc, (ht rfl).1, (hrn rfl).1, (hri rfl).1⟩

/-- C10: a `GENEVA_CONFIG_MAJOR_VERSION` value that is a plain decimal
numeral (so a valid non-negative integer) whose value is at least `2^32` is
rejected: the run halts before the client is constructed. -/
theorem config_major_version_overflow_rejected (env : Env) (s : String)
    (h : envVar env "GENEVA_CONFIG_MAJOR_VERSION" = some s)
    (hne : s.data ≠ [])
    (hdig : s.data.all Char.isDigit = true)
    (hbig : 4294967296 ≤ digitsToNat s.data) :
    ∃ e, runStartup env = RunOutcome.haltedBeforeClient e := by
  cases ho : runStartup env with
  | haltedBeforeClient e => exact ⟨e, rfl⟩
  | clientConstructed cfg =>
    exfalso
    have hr := runStartup_ok env cfg ho
    obtain ⟨-, -, -, -, -, ⟨s', h6, hp⟩, -, -, -, -⟩ :=
      readConfig_ok_fields env cfg hr
    rw [h] at h6
    injection h6 with h6
    subst h6
    rw [parseU32_of_digits s hne hdig, if_neg (Nat.not_lt.mpr hbig)] at hp
    exact Option.noConfusion hp

/-- Witness for C10 at the numeral 4294967296 = 2^32, one past the `u32`
maximum. -/
theorem config_major_version_overflow_rejected_witness :
    4294967296 ≤ digitsToNat "4294967296".data ∧
    ∃ e, runStartup [("GENEVA_CONFIG_MAJOR_VERSION", "4294967296")]
      = RunOutcome.haltedBeforeClient e :=
  ⟨by decide,
   config_major_version_overflow_rejected
     [("GENEVA_CONFIG_MAJOR_VERSION", "4294967296")] "4294967296" rfl
     (by decide) (by decide) (by decide)⟩

/-- C1: the example scenario — with a configuration whose account is
"acct1", namespace "ns1" and config-major-version 1, enqueuing three records
and calling flush() yields exactly one Exporter invocation carrying the
3-record batch tagged with the configuration's tenant/role metadata, and an
ExportResult reporting 3 accepted, on a transport mocked to answer 200. -/
theorem example_scenario_three_records :
    cfgExample.account = "acct1" ∧
    cfgExample.«namespace» = "ns1" ∧
    cfgExample.config_major_version = 1 ∧
    flush cfgExample mock200
        (enqueue recLogin (enqueue recCheckout (enqueue recReg initState)))
      = (PipelineState.mk [] [recReg, recCheckout, recLogin],
         [TaggedBatch.mk cfgExample.tenant cfgExample.role_name
            cfgExample.role_instance [recReg, recCheckout, recLogin]],
         ExportResult.success 3) :=
  ⟨rfl, rfl, rfl, rfl⟩

/-- C5: the credential's audience defaults to the origin of the configured
endpoint when neither `GENEVA_AAD_SCOPE` nor `GENEVA_AAD_RESOURCE` is set;
when one of the overrides is set, that override is used instead. -/
theorem audience_default_and_override (env : Env) (endpoint : String)
    (issue : String → String × Nat) :
    (envVar env "GENEVA_AAD_SCOPE" = none →
      envVar env "GENEVA_AAD_RESOURCE" = none →
      (getToken env endpoint issue).audience = origin endpoint) ∧
    (∀ s, envVar env "GENEVA_AAD_SCOPE" = some s →
      (getToken env endpoint issue).audience = s) ∧
    (∀ r, envVar env "GENEVA_AAD_SCOPE" = none →
      envVar env "GENEVA_AAD_RESOURCE" = some r →
      (getToken env endpoint issue).audience = r) := by
  refine ⟨?_, ?_, ?_⟩ <;> intros <;> simp [getToken, resolveAudience, *]

/-- Witness for C5 in an environment with no overrides: the audience is the
endpoint's origin, concretely the scheme and host of the endpoint URL. -/
theorem audience_default_and_override_witness :
    (getToken [] "https://gcs.example.com/api/v1" (fun a => (a, 3600))).audience
        = origin "https://gcs.example.com/api/v1" ∧
    origin "https://gcs.example.com/api/v1" = "https://gcs.example.com" :=
  ⟨(audience_default_and_override [] "https://gcs.example.com/api/v1"
      (fun a => (a, 3600))).1 rfl rfl,
   by decide⟩

theorem foldl_enqueue (p d rs : List LogRecord) :
    rs.foldl (fun st r => enqueue r st) (PipelineState.mk p d)
      = PipelineState.mk (p ++ rs) d := by
  induction rs generalizing p with
  | nil => simp
  | cons r rest ih =>
    rw [List.foldl_cons]
    have h1 : enqueue r (PipelineState.mk p d) = PipelineState.mk (p ++ [r]) d := rfl
    rw [h1, ih (p ++ [r])]
    simp

/-- C6: after shutdown(timeout) returns, every record enqueued before the
call is accounted for — on success all of them have been delivered, and on a
drain timeout the delivered count plus the reported loss count equals the
number of records enqueued; none is silently unaccounted for. -/
theorem shutdown_accounts_for_every_record (rs : List LogRecord) (budget : Nat) :
    (∀ n, (shutdown (rs.foldl (fun st r => enqueue r st) initState) budget).2
        = ShutdownResult.success n →
      (shutdown (rs.foldl (fun st r => enqueue r st) initState) budget).1.delivered
          = rs ∧ n = rs.length) ∧
    (∀ m, (shutdown (rs.foldl (fun st r => enqueue r st) initState) budget).2
        = ShutdownResult.timedOut m →
      (shutdown (rs.foldl (fun st r => enqueue r st) initState) budget).1.delivered.length
          + m = rs.length) := by
  have hst : rs.foldl (fun st r => enqueue r st) initState = PipelineState.mk rs [] := by
    simpa [initState] using foldl_enqueue [] [] rs
  rw [hst]
  by_cases hl : (rs.drop budget).isEmpty
  · have hdrop : rs.drop budget = [] := by simpa [List.isEmpty_iff] using hl
    have htake : rs.take budget = rs := by
      have h2 := List.take_append_drop budget rs
      rw [hdrop, List.append_nil] at h2
      exact h2
    have hsh : shutdown (PipelineState.mk rs []) budget
        = (PipelineState.mk [] rs, ShutdownResult.success rs.length) := by
      unfold shutdown
      simp [hdrop, htake]
    rw [hsh]
    constructor
    · intro n hn
      injection hn with hn
      exact ⟨rfl, hn.symm⟩
    · intro m hm
      exact absurd hm (by simp)
  · have hsh : shutdown (PipelineState.mk rs []) budget
        = (PipelineState.mk [] (rs.take budget),
           ShutdownResult.timedOut (rs.drop budget).length) := by
      unfold shutdown
      simp [hl]
    rw [hsh]
    constructor
    · intro n hn
      exact absurd hn (by simp)
    · intro m hm
      injection hm with hm
      subst hm
      simp
      omega

/-- Witness for C6: three enqueued records with a drain budget of one — one
record delivered, two reported lost, and 1 + 2 accounts for all 3. -/
theorem shutdown_accounts_for_every_record_witness :
    (shutdown ([recReg, recCheckout, recLogin].foldl (fun st r => enqueue r st)
        initState) 1).1.delivered.length + 2 = 3 :=
  (shutdown_accounts_for_every_record [recReg, recCheckout, recLogin] 1).2 2
    (by decide)

/-- C8: when every attempt for a batch comes back classified as a transport
error, the transport performs exactly ceiling+1 attempts in total (the
initial attempt plus the bounded retries) and then surfaces the transport
failure for that batch instead of retrying further. -/
theorem transport_error_retries_ceiling_plus_one (attempt : Nat → SendOutcome)
    (ceiling : Nat)
    (h : ∀ k, classify (attempt k) = ErrorKind.transportError) :
    sendWithRetry attempt ceiling = (ceiling + 1, ErrorKind.transportError) := by
  have main : ∀ r k, retryFrom attempt k r = (r + 1, ErrorKind.transportError) := by
    intro r
    induction r with
    | zero => intro k; simp [retryFrom, h k]
    | succ r ih => intro k; simp [retryFrom, h k, ih (k + 1)]
  exact main ceiling 0

/-- Witness for C8: a transport that times out on every attempt, with a
retry ceiling of 3, performs exactly 4 attempts and surfaces the transport
error. -/
theorem transport_error_retries_ceiling_plus_one_witness :
    sendWithRetry (fun _ => SendOutcome.timeout) 3
      = (4, ErrorKind.transportError) :=
  transport_error_retries_ceiling_plus_one (fun _ => SendOutcome.timeout) 3
    (fun _ => rfl)

theorem drop_len_append {α : Type} (l1 l2 : List α) (n : Nat) :
    (l1 ++ l2).drop (l1.length + n) = l2.drop n := by
  induction l1 with
  | nil => simp
  | cons a t ih => simp [Nat.succ_add, ih]

theorem take_len_append {α : Type} (l1 l2 : List α) :
    (l1 ++ l2).take l1.length = l1 := by
  induction l1 with
  | nil => simp
  | cons a t ih => simp [ih]

theorem flatten_drop_sum {α : Type} (L : List (List α)) (k : Nat) :
    L.flatten.drop (((L.map List.length).take k).sum) = (L.drop k).flatten := by
  induction k generalizing L with
  | zero => simp
  | succ k ih =>
    cases L with
    | nil => simp
    | cons x xs =>
      simp only [List.map_cons, List.take_succ_cons, List.sum_cons,
        List.flatten_cons, List.drop_succ_cons]
      rw [drop_len_append, ih]

theorem sum_take_le (l : List Nat) (n : Nat) : (l.take n).sum ≤ l.sum := by
  conv_rhs => rw [← List.take_append_drop n l]
  rw [List.sum_append]
  exact Nat.le_add_right _ _

theorem sum_take_mono (l : List Nat) {m n : Nat} (h : m ≤ n) :
    (l.take m).sum ≤ (l.take n).sum := by
  have h2 : (l.take n).take m = l.take m := by
    rw [List.take_take, Nat.min_eq_left h]
  rw [← h2]
  exact sum_take_le _ _

theorem sum_take_succ (l : List Nat) (n : Nat) (h : n < l.length) :
    (l.take (n + 1)).sum = (l.take n).sum + l.get ⟨n, h⟩ := by
  rw [List.take_succ, List.sum_append]
  simp [List.getElem?_eq_getElem h]

theorem serializeRecord_length_pos (r : LogRecord) :
    0 < (serializeRecord r).length := by
  simp [serializeRecord]

/-- C7: within one serialized batch, record order is preserved — each
record's encoding appears intact at its offset in the serialization, and
record `i`'s segment lies wholly before record `j`'s segment exactly when
`i` precedes `j` in the batch. -/
theorem serialized_batch_preserves_order (t rn ri : String) (b : List LogRecord)
    (i j : Nat) (hi : i < b.length) (hj : j < b.length) :
    ((serializeBatch t rn ri b).drop (recordOffset t rn ri b i)).take
        (serializeRecord (b.get ⟨i, hi⟩)).length
      = serializeRecord (b.get ⟨i, hi⟩) ∧
    (i < j ↔ recordOffset t rn ri b i + (serializeRecord (b.get ⟨i, hi⟩)).length
        ≤ recordOffset t rn ri b j) := by
  constructor
  · have h1 : (serializeBatch t rn ri b).drop (recordOffset t rn ri b i)
        = ((b.map serializeRecord).drop i).flatten := by
      unfold serializeBatch recordOffset
      rw [drop_len_append, flatten_drop_sum]
    have hiM : i < (b.map serializeRecord).length := by simpa using hi
    rw [h1, List.drop_eq_getElem_cons hiM, List.flatten_cons]
    have h2 : (b.map serializeRecord)[i] = serializeRecord (b.get ⟨i, hi⟩) := by
      simp
    rw [h2]
    exact take_len_append _ _
  · constructor
    · intro hij
      have hiL : i < ((b.map serializeRecord).map List.length).length := by
        simpa using hi
      have hstep := sum_take_succ ((b.map serializeRecord).map List.length) i hiL
      have hget : ((b.map serializeRecord).map List.length).get ⟨i, hiL⟩
          = (serializeRecord (b.get ⟨i, hi⟩)).length := by simp
      rw [hget] at hstep
      have hmono := sum_take_mono ((b.map serializeRecord).map List.length)
        (Nat.succ_le_of_lt hij)
      have hsum : (((b.map serializeRecord).map List.length).take i).sum
            + (serializeRecord (b.get ⟨i, hi⟩)).length
          ≤ (((b.map serializeRecord).map List.length).take j).sum := by
        rw [← hstep]
        exact hmono
      unfold recordOffset
      rw [Nat.add_assoc]
      exact Nat.add_le_add_left hsum _
    · intro hle
      by_contra hij
      push_neg at hij
      have hmono : recordOffset t rn ri b j ≤ recordOffset t rn ri b i := by
        unfold recordOffset
        exact Nat.add_le_add_left
          (sum_take_mono ((b.map serializeRecord).map List.length) hij) _
      have hpos := serializeRecord_length_pos (b.get ⟨i, hi⟩)
      omega

/-- Witness for C7 on a concrete two-record batch: record 0's encoding sits
at its offset, and its segment precedes record 1's segment. -/
theorem serialized_batch_preserves_order_witness :
    ((serializeBatch "tenant1" "role1" "instance1" [recReg, recCheckout]).drop
        (recordOffset "tenant1" "role1" "instance1" [recReg, recCheckout] 0)).take
        (serializeRecord ([recReg, recCheckout].get ⟨0, by decide⟩)).length
      = serializeRecord ([recReg, recCheckout].get ⟨0, by decide⟩) ∧
    (0 < 1 ↔ recordOffset "tenant1" "role1" "instance1" [recReg, recCheckout] 0
        + (serializeRecord ([recReg, recCheckout].get ⟨0, by decide⟩)).length
        ≤ recordOffset "tenant1" "role1" "instance1" [recReg, recCheckout] 1) :=
  serialized_batch_preserves_order "tenant1" "role1" "instance1"
    [recReg, recCheckout] 0 1 (by decide) (by decide)

end Geneva
